import Mathlib

/-!  Verification of the USDC agentic trader (src/src/agent.js, first/canonical
version of the file) against its natural-language specification.

Shallow embedding conventions:
- JavaScript numbers are modelled as rationals; all arithmetic in the agent is
  plain real arithmetic on prices and balances, no wrap-around is involved.
- A JavaScript value that may be null or undefined is an Option; the JS
  truthiness test on a number field treats both null and 0 as falsy, which is
  modelled by matching on the Option and comparing the payload with 0.
- The expression x || d on numbers is jsOr x d (absent numeric fields are
  modelled as 0, which JS treats the same as undefined in every use here).
- Math.round x is floor (x + 1/2), which is exactly the JS behaviour on all
  inputs, including negative ones.
- External backends (Drift venue, SPL transfers, the fetch calls) are modelled
  by an environment value holding the outcome of each call the function may
  make; a thrown exception is the none outcome.  The mutating backend calls a
  run of executeTrade performs are collected in an ordered list.
-/

namespace Trader

/-- Direction of a perpetual position, the LONG / SHORT strings of the source. -/
inductive Direction where
  | LONG
  | SHORT
deriving DecidableEq, Repr

/-- The action strings the agent understands, plus FAILED which only appears as
an executed action. -/
inductive Action where
  | HOLD
  | ALLOCATE_TO_TREASURY
  | WITHDRAW_FROM_TREASURY
  | REBALANCE
  | OPEN_SHORT
  | OPEN_LONG
  | CLOSE_SHORT
  | CLOSE_LONG
  | DEPOSIT_TO_DRIFT
  | FAILED
deriving DecidableEq, Repr

/-- The market_outlook strings of a decision. -/
inductive Outlook where
  | bullish
  | bearish
  | neutral
deriving DecidableEq, Repr

/-- The reason strings of makeRuleBasedDecision, abstracted to the template of
each branch together with the numbers interpolated into it. -/
inductive Reason where
  | closingLongBearish (change momentum : ℚ)
  | closingShortBullish (change momentum : ℚ)
  | takingProfit (pnl takeProfitUsd : ℚ)
  | cuttingLoss (pnl stopLossUsd : ℚ)
  | bearishShortSignal (change momentum : ℚ)
  | bullishLongSignal (change momentum : ℚ)
  | depositingCollateral
  | insufficientBalance
  | bearishProtectCapital (change momentum : ℚ)
  | bullishDeployCapital (change momentum : ℚ)
  | portfolioSkewed (agentShare : ℚ)
  | noClearSignal
deriving DecidableEq, Repr

/-- One entry of the price history ring: the objects pushed by tradingCycle as
time / price pairs. -/
structure PricePoint where
  time : ℚ
  price : ℚ
deriving DecidableEq, Repr

/-- A perp position snapshot as produced by getAccountInfo in drift-devnet:
fields baseAmount, quoteAmount, direction, unrealizedPnl and nothing else. -/
structure Position where
  baseAmount : ℚ
  quoteAmount : ℚ
  direction : Direction
  unrealizedPnl : ℚ
deriving DecidableEq, Repr

/-- The object produced by getDriftInfo: available, hasAccount, position,
driftBalance, freeCollateral, openOrders (only the count of open orders
matters to the core). -/
structure DriftInfo where
  available : Bool
  hasAccount : Bool
  position : Option Position
  driftBalance : ℚ
  freeCollateral : ℚ
  openOrders : ℕ
deriving DecidableEq, Repr

/-- A decision as produced by the rule engine or parsed from the advisor
response.  Absent numeric fields are 0. -/
structure Decision where
  action : Action
  amount : ℚ
  size_usd : ℚ
  leverage : ℚ
  confidence : ℚ
  reason : Reason
  market_outlook : Outlook
deriving DecidableEq, Repr

/-- The position snapshot stored inside a trade record by tradingCycle. -/
structure PositionSnap where
  direction : Direction
  size : ℚ
  pnl : ℚ
deriving DecidableEq, Repr

/-- A persisted trade record, the object pushed on state.trades each cycle. -/
structure TradeRecord where
  time : ℚ
  cycle : ℕ
  action : Action
  amount : ℚ
  txSig : Option ℕ
  confidence : ℚ
  reason : Reason
  market_outlook : Outlook
  solPrice : ℚ
  agentBalance : ℚ
  treasuryBalance : ℚ
  driftPosition : Option PositionSnap
deriving DecidableEq, Repr

/-- A strategy-level trade record pushed on state.strategyTrades at close. -/
structure StrategyTrade where
  time : ℚ
  direction : Direction
  oracleOpen : ℚ
  oracleClose : ℚ
  size : ℚ
  pnl : ℚ
deriving DecidableEq, Repr

/-- One entry of the balance-history ring. -/
structure BalancePoint where
  time : ℚ
  total : ℚ
  agent : ℚ
  treasury : ℚ
  drift : ℚ
deriving DecidableEq, Repr

/-- The Agent State root persisted by saveState, field for field the object
built by loadState. -/
structure AgentState where
  prices : List PricePoint
  trades : List TradeRecord
  cycle : ℕ
  startTime : ℚ
  totalTransactions : ℕ
  totalVolumeUSDC : ℚ
  initialBalance : Option ℚ
  balanceHistory : List BalancePoint
  realizedPnL : ℚ
  strategyPnL : ℚ
  strategyTrades : List StrategyTrade
  currentOpenOracle : Option ℚ
  currentOpenDirection : Option Direction
  currentOpenSize : Option ℚ
  lastPositionOpenTime : Option ℚ
  lastPositionCloseTime : Option ℚ
deriving DecidableEq, Repr

/-- The fresh state object loadState builds when no state file exists. -/
def freshState (startTime : ℚ) : AgentState :=
  { prices := []
    trades := []
    cycle := 0
    startTime := startTime
    totalTransactions := 0
    totalVolumeUSDC := 0
    initialBalance := none
    balanceHistory := []
    realizedPnL := 0
    strategyPnL := 0
    strategyTrades := []
    currentOpenOracle := none
    currentOpenDirection := none
    currentOpenSize := none
    lastPositionOpenTime := none
    lastPositionCloseTime := none }

/-- The normalized result of executeTrade: txRef, executed action, executed
amount. -/
structure ExecResult where
  txSig : Option ℕ
  action : Action
  amount : ℚ
deriving DecidableEq, Repr

/-- The two spot accounts the agent owns. -/
inductive Account where
  | agent
  | treasury
deriving DecidableEq, Repr

/-- A backend mutating call dispatched during executeTrade. -/
inductive Call where
  | venueOpen (direction : Direction) (sizeUsd leverage : ℚ)
  | venueClose
  | venueDeposit (amount : ℚ)
  | spotTransfer (source : Account) (amount : ℚ)
  | cancelOrders
deriving DecidableEq, Repr

/-- Successful outcome of drift openPosition: the placement signature and the
oracle price read at placement (the other fields are only logged). -/
structure OpenResult where
  txSig : ℕ
  price : ℚ
deriving DecidableEq, Repr

/-- Successful outcome of drift closePosition when a position existed. -/
structure CloseResult where
  txSig : ℕ
  pnl : ℚ
deriving DecidableEq, Repr

/-- Outcomes of every external call executeTrade may make.  A none outcome of
a call models the call throwing. -/
structure ExecEnv where
  driftAvailable : Bool
  depositResult : Option ℕ
  openResult : Option OpenResult
  openFills : Bool
  closeResult : Option (Option CloseResult)
  closeFills : Bool
  transferResult : Option ℕ
deriving DecidableEq, Repr

-- ── Configuration constants of the source ────────────────────────────────────

def MIN_USDC_TRADE : ℚ := 1/2

def MAX_USDC_TRADE_PCT : ℚ := 1/4

def MIN_PERP_SIZE_USD : ℚ := 1

def MAX_PERP_SIZE_USD : ℚ := 10

def DEFAULT_LEVERAGE : ℚ := 2

def MIN_POSITION_HOLD_MS : ℚ := 30 * 60 * 1000

def TRADE_COOLDOWN_MS : ℚ := 10 * 60 * 1000

def SPREAD_TOLERANCE_PCT : ℚ := 3/100

-- ── Small JS helpers ─────────────────────────────────────────────────────────

/-- JS x || d on numbers: 0 (and the absent field, modelled as 0) falls back
to the default. -/
def jsOr (x d : ℚ) : ℚ :=
  if x = 0 then d else x

/-- JS Math.round: floor (x + 1/2) on every input. -/
def jsRound (x : ℚ) : ℤ :=
  ⌊x + 1/2⌋

/-- Rounding to two decimals, the Math.round (x * 100) / 100 idiom. -/
def round2 (x : ℚ) : ℚ :=
  (jsRound (x * 100) : ℚ) / 100

/-- Push an element on a bounded ring: push, then keep only the last cap
entries when the cap is exceeded (the push / slice(-cap) idiom). -/
def pushTrim (cap : ℕ) (l : List α) (x : α) : List α :=
  let l2 := l ++ [x]
  if cap < l2.length then l2.drop (l2.length - cap) else l2

-- ── Market data: getSOLPrice ─────────────────────────────────────────────────

/-- Outcome of the CoinGecko fetch: a parsed price and 24h change, or any
thrown error (network failure, bad JSON). -/
inductive FetchOutcome where
  | ok (price change24h : ℚ)
  | fail
deriving DecidableEq, Repr

/-- The price / change24h pair getSOLPrice returns. -/
structure PriceResult where
  price : ℚ
  change24h : ℚ
deriving DecidableEq, Repr

/-- getSOLPrice over the module-level lastGoodPrice cell: returns the result
and the new value of the cell. -/
def getSOLPrice (lastGoodPrice : Option ℚ) (f : FetchOutcome) :
    PriceResult × Option ℚ :=
  match f, lastGoodPrice with
  | .ok price change24h, some g =>
    -- sanity check: reject prices that jump more than 30 pct from last good
    if g ≠ 0 ∧ |price - g| / g > 30/100 then
      ({ price := g, change24h := jsOr change24h 0 }, some g)
    else
      ({ price := price, change24h := change24h }, some price)
  | .ok price change24h, none =>
    ({ price := price, change24h := change24h }, some price)
  | .fail, some g =>
    if g ≠ 0 then ({ price := g, change24h := 0 }, some g)
    else ({ price := 0, change24h := 0 }, some g)
  | .fail, none =>
    ({ price := 0, change24h := 0 }, none)

/-- Iterated getSOLPrice over a sequence of fetch outcomes, collecting the
returned results. -/
def runPrices (lastGoodPrice : Option ℚ) :
    List FetchOutcome → List PriceResult × Option ℚ
  | [] => ([], lastGoodPrice)
  | f :: fs =>
    let step := getSOLPrice lastGoodPrice f
    let rest := runPrices step.2 fs
    (step.1 :: rest.1, rest.2)

-- ── Trend analysis ───────────────────────────────────────────────────────────

/-- Trend direction reported by analyzeTrend. -/
inductive Trend where
  | bullish
  | bearish
  | neutral
deriving DecidableEq, Repr

/-- The object analyzeTrend returns.  The fields that the short-history early
return leaves undefined are Options. -/
structure TrendAnalysis where
  trend : Trend
  strength : ℚ
  momentum : ℚ
  support : Option ℚ
  resistance : Option ℚ
  smaShort : Option ℚ
  smaLong : Option ℚ
  consecutiveUp : Option ℕ
  consecutiveDown : Option ℕ
  priceVsRange : Option ℚ
deriving DecidableEq, Repr

/-- The prices array of a price history. -/
def pricesOf (priceHistory : List PricePoint) : List ℚ :=
  priceHistory.map PricePoint.price

/-- prices.slice(-10): the most recent window. -/
def recentOf (prices : List ℚ) : List ℚ :=
  prices.drop (prices.length - 10)

/-- Short simple moving average: sum of the last five readings over
min 5 length. -/
def smaShortOf (recent : List ℚ) : ℚ :=
  (recent.drop (recent.length - 5)).sum / (min 5 recent.length : ℕ)

/-- Long simple moving average over the whole recent window. -/
def smaLongOf (recent : List ℚ) : ℚ :=
  recent.sum / (recent.length : ℕ)

/-- Percentage difference of the two moving averages. -/
def smaDiffOf (recent : List ℚ) : ℚ :=
  (smaShortOf recent - smaLongOf recent) / smaLongOf recent * 100

/-- The backward walk of the consecutive-step counters.  The input list is the
recent window newest-first; cu and cd are the accumulated counters.  Mirrors
the for loop of analyzeTrend: an up step with downs already counted (or the
converse, or a flat step) stops the walk. -/
def consecLoop : List ℚ → ℕ → ℕ → ℕ × ℕ
  | x :: y :: rest, cu, cd =>
    if x > y then
      if cd > 0 then (cu, cd) else consecLoop (y :: rest) (cu + 1) cd
    else if x < y then
      if cu > 0 then (cu, cd) else consecLoop (y :: rest) cu (cd + 1)
    else (cu, cd)
  | _, cu, cd => (cu, cd)

/-- The consecutiveUp / consecutiveDown counters of a recent window. -/
def consecOf (recent : List ℚ) : ℕ × ℕ :=
  consecLoop recent.reverse 0 0

/-- analyzeTrend, line for line.  The local variable named oldest in the
source is never read and is omitted.  Division by zero (an all-zero window)
follows the Lean 0-valued convention rather than the JS NaN; no claim touches
that case. -/
def analyzeTrend (priceHistory : List PricePoint) : TrendAnalysis :=
  if priceHistory.length < 5 then
    { trend := .neutral, strength := 0, momentum := 0, support := none
      resistance := none, smaShort := none, smaLong := none
      consecutiveUp := none, consecutiveDown := none, priceVsRange := none }
  else
    let prices := pricesOf priceHistory
    let recent := recentOf prices
    let smaShort := smaShortOf recent
    let smaLong := smaLongOf recent
    let momentum := (recent.getLastD 0 - recent.headD 0) / recent.headD 0 * 100
    let smaDiff := smaDiffOf recent
    let support := (recent.min?).getD 0
    let resistance := (recent.max?).getD 0
    let currentPrice := recent.getLastD 0
    let range := resistance - support
    let cuCd := consecOf recent
    let trend : Trend :=
      if smaDiff > 1/10 then .bullish
      else if smaDiff < -(1/10) then .bearish
      else .neutral
    let strength := min 100 (|smaDiff| * 20 + (max cuCd.1 cuCd.2 : ℕ) * 10)
    { trend := trend
      strength := (jsRound strength : ℚ)
      momentum := round2 momentum
      support := some (round2 support)
      resistance := some (round2 resistance)
      smaShort := some (round2 smaShort)
      smaLong := some (round2 smaLong)
      consecutiveUp := some cuCd.1
      consecutiveDown := some cuCd.2
      priceVsRange := some
        (if range > 0 then (jsRound ((currentPrice - support) / range * 100) : ℚ)
         else 50) }

-- ── Rule-based decision engine ───────────────────────────────────────────────

/-- The decision context built by tradingCycle, restricted to the fields
makeRuleBasedDecision destructures (the remaining fields only feed the advisor
prompt text). -/
structure Context where
  agentBalance : ℚ
  treasuryBalance : ℚ
  solChange24h : ℚ
  priceHistory : List PricePoint
  driftAvailable : Bool
  driftPosition : Option Position
  freeCollateral : ℚ
deriving DecidableEq, Repr

/-- The momentum local of makeRuleBasedDecision: percentage change over the
last three readings when at least three exist, else 0. -/
def ruleMomentum (priceHistory : List PricePoint) : ℚ :=
  if 3 ≤ priceHistory.length then
    let recent := (pricesOf priceHistory).drop (priceHistory.length - 3)
    (recent.getD 2 0 - recent.getD 0 0) / recent.getD 0 0 * 100
  else 0

/-- makeRuleBasedDecision, branch for branch. -/
def makeRuleBasedDecision (context : Context) : Decision :=
  let agentBalance := context.agentBalance
  let treasuryBalance := context.treasuryBalance
  let solChange24h := context.solChange24h
  let freeCollateral := context.freeCollateral
  let total := agentBalance + treasuryBalance
  let momentum := ruleMomentum context.priceHistory
  let fallback : Decision :=
    -- the treasury-management cascade after the drift block
    if total < MIN_USDC_TRADE * 2 then
      { action := .HOLD, amount := 0, size_usd := 0, leverage := 2
        confidence := 50, reason := .insufficientBalance
        market_outlook := .neutral }
    else
      let agentShare := agentBalance / total   -- agentRatio in the source
      if (solChange24h < -3 ∨ momentum < -(3/2)) ∧
          agentBalance > MIN_USDC_TRADE then
        let amount := min (agentBalance * (3/10)) (agentBalance - MIN_USDC_TRADE)
        { action := .ALLOCATE_TO_TREASURY, amount := max MIN_USDC_TRADE amount
          size_usd := 0, leverage := 2, confidence := 70
          reason := .bearishProtectCapital solChange24h momentum
          market_outlook := .bearish }
      else if (solChange24h > 3 ∨ momentum > 3/2) ∧
          treasuryBalance > MIN_USDC_TRADE then
        let amount := min (treasuryBalance * (3/10)) (treasuryBalance - MIN_USDC_TRADE)
        { action := .WITHDRAW_FROM_TREASURY, amount := max MIN_USDC_TRADE amount
          size_usd := 0, leverage := 2, confidence := 65
          reason := .bullishDeployCapital solChange24h momentum
          market_outlook := .bullish }
      else if (agentShare > 7/10 ∨ agentShare < 3/10) ∧
          |agentBalance - total * (1/2)| > MIN_USDC_TRADE then
        { action := .REBALANCE, amount := |agentBalance - total * (1/2)|
          size_usd := 0, leverage := 2, confidence := 60
          reason := .portfolioSkewed agentShare
          market_outlook := .neutral }
      else
        { action := .HOLD, amount := 0, size_usd := 0, leverage := 2
          confidence := 55, reason := .noClearSignal
          market_outlook := .neutral }
  if context.driftAvailable then
    match context.driftPosition with
    | some p =>
      if p.direction = .LONG ∧ (solChange24h < -3 ∨ momentum < -2) then
        { action := .CLOSE_LONG, amount := 0, size_usd := 0, leverage := 2
          confidence := 75, reason := .closingLongBearish solChange24h momentum
          market_outlook := .bearish }
      else if p.direction = .SHORT ∧ (solChange24h > 3 ∨ momentum > 2) then
        { action := .CLOSE_SHORT, amount := 0, size_usd := 0, leverage := 2
          confidence := 75, reason := .closingShortBullish solChange24h momentum
          market_outlook := .bullish }
      else
        let takeProfitUsd := jsOr freeCollateral 10 * (8/100)
        if p.unrealizedPnl > takeProfitUsd then
          { action := if p.direction = .LONG then .CLOSE_LONG else .CLOSE_SHORT
            amount := 0, size_usd := 0, leverage := 2, confidence := 70
            reason := .takingProfit p.unrealizedPnl takeProfitUsd
            market_outlook := .neutral }
        else
          let stopLossUsd := jsOr freeCollateral 10 * (10/100)
          if p.unrealizedPnl < -stopLossUsd then
            { action := if p.direction = .LONG then .CLOSE_LONG else .CLOSE_SHORT
              amount := 0, size_usd := 0, leverage := 2, confidence := 65
              reason := .cuttingLoss p.unrealizedPnl stopLossUsd
              market_outlook := if p.direction = .LONG then .bearish else .bullish }
          else if freeCollateral < MIN_PERP_SIZE_USD ∧ agentBalance > 5 then
            { action := .DEPOSIT_TO_DRIFT
              amount := min (agentBalance * (3/10)) 10
              size_usd := 0, leverage := 2, confidence := 65
              reason := .depositingCollateral, market_outlook := .neutral }
          else fallback
    | none =>
      if freeCollateral ≥ MIN_PERP_SIZE_USD ∧
          (solChange24h < -4 ∨ momentum < -2) then
        { action := .OPEN_SHORT, amount := 0
          size_usd := min (freeCollateral * (1/2)) MAX_PERP_SIZE_USD
          leverage := 2, confidence := 70
          reason := .bearishShortSignal solChange24h momentum
          market_outlook := .bearish }
      else if freeCollateral ≥ MIN_PERP_SIZE_USD ∧
          (solChange24h > 4 ∨ momentum > 2) then
        { action := .OPEN_LONG, amount := 0
          size_usd := min (freeCollateral * (1/2)) MAX_PERP_SIZE_USD
          leverage := 2, confidence := 70
          reason := .bullishLongSignal solChange24h momentum
          market_outlook := .bullish }
      else if freeCollateral < MIN_PERP_SIZE_USD ∧ agentBalance > 5 then
        { action := .DEPOSIT_TO_DRIFT
          amount := min (agentBalance * (3/10)) 10
          size_usd := 0, leverage := 2, confidence := 65
          reason := .depositingCollateral, market_outlook := .neutral }
      else fallback
  else fallback

-- ── Advisor gateway ──────────────────────────────────────────────────────────

/-- Outcome of the advisor HTTP call as seen by askClaude.  transportError
covers a thrown fetch, a timeout, and a body that res.json() cannot parse;
httpError is a non-2xx response; ok carries the extracted message content, or
none when the response holds no (non-empty) content. -/
inductive AdvisorResponse where
  | transportError
  | httpError
  | ok (content : Option String)
deriving DecidableEq, Repr

/-- askClaude.  The extract argument models the composition of the JSON-object
regex match on the content and JSON.parse: it yields none when no object is
found or parsing throws. -/
def askClaude (response : AdvisorResponse)
    (extract : String → Option Decision) (context : Context) : Decision :=
  match response with
  | .transportError => makeRuleBasedDecision context
  | .httpError => makeRuleBasedDecision context
  | .ok none => makeRuleBasedDecision context
  | .ok (some content) =>
    match extract content with
    | none => makeRuleBasedDecision context
    | some d => d

-- ── Anti-churn guards ────────────────────────────────────────────────────────

/-- True when the action is a close request. -/
def isCloseReqB : Action → Bool
  | .CLOSE_SHORT => true
  | .CLOSE_LONG => true
  | _ => false

/-- True when the action is an open request. -/
def isOpenReqB : Action → Bool
  | .OPEN_SHORT => true
  | .OPEN_LONG => true
  | _ => false

/-- True when the action dispatches to the drift venue. -/
def isDriftActionB : Action → Bool
  | .OPEN_SHORT => true
  | .OPEN_LONG => true
  | .CLOSE_SHORT => true
  | .CLOSE_LONG => true
  | .DEPOSIT_TO_DRIFT => true
  | _ => false

/-- Guard 1, minimum hold time: fires when a position-open time is recorded
(JS-truthy, so nonzero) and the hold duration is below the minimum. -/
def closeGuard1 (lastPositionOpenTime : Option ℚ) (now : ℚ) : Bool :=
  match lastPositionOpenTime with
  | some t => decide (t ≠ 0 ∧ now - t < MIN_POSITION_HOLD_MS)
  | none => false

/-- Guard 2, spread tolerance: fires when the position shows a loss no larger
than the tolerance.  In the source positionValue is
driftInfo.collateral || driftInfo.position.sizeUsd || 10, and neither field is
ever produced (getDriftInfo and getAccountInfo do not emit them), so the
fallback 10 always applies. -/
def closeGuard2 (driftInfo : DriftInfo) : Bool :=
  match driftInfo.position with
  | some p =>
    let positionValue : ℚ := 10
    let spreadToleranceUsd := positionValue * SPREAD_TOLERANCE_PCT
    decide (p.unrealizedPnl < 0 ∧ |p.unrealizedPnl| ≤ spreadToleranceUsd)
  | none => false

/-- Guard 3, cooldown after a close. -/
def openGuard3 (lastPositionCloseTime : Option ℚ) (now : ℚ) : Bool :=
  match lastPositionCloseTime with
  | some t => decide (t ≠ 0 ∧ now - t < TRADE_COOLDOWN_MS)
  | none => false

/-- Guard 4, no stacking: fires when a position in the requested direction is
already open. -/
def openGuard4 (driftInfo : DriftInfo) (a : Action) : Bool :=
  match driftInfo.position with
  | some p =>
    decide (p.direction = (if a = Action.OPEN_LONG then Direction.LONG
      else Direction.SHORT))
  | none => false

/-- The whole anti-churn gate of executeTrade: which proposed actions are
downgraded before dispatch. -/
def antiChurnFires (a : Action) (st : AgentState) (driftInfo : DriftInfo)
    (now : ℚ) : Bool :=
  (isCloseReqB a &&
    (closeGuard1 st.lastPositionOpenTime now || closeGuard2 driftInfo)) ||
  (isOpenReqB a &&
    (openGuard3 st.lastPositionCloseTime now || openGuard4 driftInfo a))

-- ── Execution router ─────────────────────────────────────────────────────────

/-- The neutral result of a downgraded action. -/
def holdResult : ExecResult :=
  { txSig := none, action := .HOLD, amount := 0 }

/-- The result of a backend exception during a mutating call. -/
def failedResult : ExecResult :=
  { txSig := none, action := .FAILED, amount := 0 }

/-- The drift deposit branch of executeTrade. -/
def depositDispatch (decision : Decision) (agentBalance : ℚ) (env : ExecEnv) :
    ExecResult × List Call :=
  let depositAmt := min (jsOr decision.amount 5) (agentBalance * (1/2))
  if depositAmt < 1 then (holdResult, [])
  else
    match env.depositResult with
    | some s =>
      ({ txSig := some s, action := .DEPOSIT_TO_DRIFT, amount := depositAmt },
        [Call.venueDeposit depositAmt])
    | none => (failedResult, [Call.venueDeposit depositAmt])

/-- The open branch of executeTrade: clamp size and leverage, best-effort
close of an opposite position, place the order, wait for the fill (an unfilled
order is cancelled and the cycle records a HOLD that keeps the placement
signature). -/
def openDispatch (direction : Direction) (act : Action) (decision : Decision)
    (driftInfo : DriftInfo) (env : ExecEnv) : ExecResult × List Call :=
  let sizeUsd := min (jsOr decision.size_usd 5) MAX_PERP_SIZE_USD
  let leverage := min (jsOr decision.leverage DEFAULT_LEVERAGE) 5
  if sizeUsd < MIN_PERP_SIZE_USD then (holdResult, [])
  else
    let preClose : List Call :=
      match driftInfo.position with
      | some p =>
        if (direction = .SHORT ∧ p.direction = .LONG) ∨
            (direction = .LONG ∧ p.direction = .SHORT) then [Call.venueClose]
        else []
      | none => []
    match env.openResult with
    | none => (failedResult, preClose ++ [Call.venueOpen direction sizeUsd leverage])
    | some r =>
      if env.openFills then
        ({ txSig := some r.txSig, action := act, amount := sizeUsd },
          preClose ++ [Call.venueOpen direction sizeUsd leverage])
      else
        ({ txSig := some r.txSig, action := .HOLD, amount := 0 },
          preClose ++ [Call.venueOpen direction sizeUsd leverage, Call.cancelOrders])

/-- The close branch of executeTrade.  When closePosition returns null the
source keeps the requested action with a null signature; when the close order
does not fill the result is a HOLD that keeps the placement signature. -/
def closeDispatch (act : Action) (decision : Decision) (driftInfo : DriftInfo)
    (env : ExecEnv) : ExecResult × List Call :=
  match driftInfo.position with
  | none => (holdResult, [])
  | some _ =>
    match env.closeResult with
    | none => (failedResult, [Call.venueClose])
    | some none =>
      ({ txSig := none, action := act, amount := jsOr decision.amount 0 },
        [Call.venueClose])
    | some (some r) =>
      if env.closeFills then
        ({ txSig := some r.txSig, action := act, amount := |jsOr r.pnl 0| },
          [Call.venueClose])
      else
        ({ txSig := some r.txSig, action := .HOLD, amount := 0 },
          [Call.venueClose, Call.cancelOrders])

/-- The treasury transfer section of executeTrade (reached for non-drift
actions whose requested amount passed the minimum gate). -/
def treasuryDispatch (decision : Decision) (agentBalance treasuryBalance : ℚ)
    (env : ExecEnv) : ExecResult × List Call :=
  match decision.action with
  | .ALLOCATE_TO_TREASURY =>
    let maxAmount := min (jsOr decision.amount 0)
      (min (agentBalance * MAX_USDC_TRADE_PCT) (agentBalance - MIN_USDC_TRADE))
    if MIN_USDC_TRADE ≤ maxAmount then
      let amt := round2 maxAmount
      match env.transferResult with
      | some s =>
        ({ txSig := some s, action := .ALLOCATE_TO_TREASURY, amount := amt },
          [Call.spotTransfer .agent amt])
      | none => (failedResult, [Call.spotTransfer .agent amt])
    else (holdResult, [])
  | .WITHDRAW_FROM_TREASURY =>
    let maxAmount := min (jsOr decision.amount 0)
      (min (treasuryBalance * MAX_USDC_TRADE_PCT) (treasuryBalance - MIN_USDC_TRADE))
    if MIN_USDC_TRADE ≤ maxAmount then
      let amt := round2 maxAmount
      match env.transferResult with
      | some s =>
        ({ txSig := some s, action := .WITHDRAW_FROM_TREASURY, amount := amt },
          [Call.spotTransfer .treasury amt])
      | none => (failedResult, [Call.spotTransfer .treasury amt])
    else (holdResult, [])
  | .REBALANCE =>
    let total := agentBalance + treasuryBalance
    let target := total / 2
    let diff := agentBalance - target
    if MIN_USDC_TRADE ≤ |diff| then
      let amt := round2 |diff|
      let source := if diff > 0 then Account.agent else Account.treasury
      match env.transferResult with
      | some s =>
        ({ txSig := some s, action := .REBALANCE, amount := amt },
          [Call.spotTransfer source amt])
      | none => (failedResult, [Call.spotTransfer source amt])
    else (holdResult, [])
  | a => ({ txSig := none, action := a, amount := jsOr decision.amount 0 }, [])

/-- executeTrade: anti-churn guards, then drift dispatch or treasury dispatch.
Returns the normalized result and the ordered list of backend mutating calls
performed. -/
def executeTrade (decision : Decision) (agentBalance treasuryBalance : ℚ)
    (driftInfo : DriftInfo) (st : AgentState) (now : ℚ) (env : ExecEnv) :
    ExecResult × List Call :=
  let action := decision.action
  if isCloseReqB action && closeGuard1 st.lastPositionOpenTime now then
    (holdResult, [])
  else if isCloseReqB action && closeGuard2 driftInfo then
    (holdResult, [])
  else if isOpenReqB action && openGuard3 st.lastPositionCloseTime now then
    (holdResult, [])
  else if isOpenReqB action && openGuard4 driftInfo action then
    (holdResult, [])
  else if isDriftActionB action then
    if !env.driftAvailable then (holdResult, [])
    else
      match action with
      | .DEPOSIT_TO_DRIFT => depositDispatch decision agentBalance env
      | .OPEN_SHORT => openDispatch .SHORT .OPEN_SHORT decision driftInfo env
      | .OPEN_LONG => openDispatch .LONG .OPEN_LONG decision driftInfo env
      | .CLOSE_SHORT => closeDispatch .CLOSE_SHORT decision driftInfo env
      | .CLOSE_LONG => closeDispatch .CLOSE_LONG decision driftInfo env
      | _ => (holdResult, [])
  else if action = Action.HOLD ∨ jsOr decision.amount 0 < MIN_USDC_TRADE then
    (holdResult, [])
  else treasuryDispatch decision agentBalance treasuryBalance env

-- ── Cycle recording: trade record, counters, hold timers, strategy P&L ──────

/-- JS truthiness of an optional number: present and nonzero. -/
def truthyQ (o : Option ℚ) : Bool :=
  match o with
  | some x => decide (x ≠ 0)
  | none => false

/-- The record-keeping tail of tradingCycle, after executeTrade returns: build
and push the trade record, bump the transaction counters when a signature is
present, start the hold timer and record the oracle open on an executed open,
and on an executed close start the cooldown, accumulate strategy P&L at oracle
prices, clear the open-reference fields and accumulate execution-realized
P&L.  driftInfo is the pre-trade snapshot gathered at the top of the cycle. -/
def tradingCycleRecord (st : AgentState) (decision : Decision)
    (result : ExecResult) (solPrice agentBalance treasuryBalance : ℚ)
    (driftInfo : DriftInfo) (now : ℚ) : AgentState :=
  let trade : TradeRecord :=
    { time := now
      cycle := st.cycle
      action := result.action
      amount := result.amount
      txSig := result.txSig
      confidence := decision.confidence
      reason := decision.reason
      market_outlook := decision.market_outlook
      solPrice := solPrice
      agentBalance := agentBalance
      treasuryBalance := treasuryBalance
      driftPosition := driftInfo.position.map fun p =>
        { direction := p.direction, size := |p.baseAmount|
          pnl := p.unrealizedPnl } }
  let st1 := { st with trades := pushTrim 500 st.trades trade }
  let st2 :=
    if result.txSig.isSome then
      { st1 with totalTransactions := st1.totalTransactions + 1
                 totalVolumeUSDC := st1.totalVolumeUSDC + result.amount }
    else st1
  let st3 :=
    if (result.action = .OPEN_SHORT ∨ result.action = .OPEN_LONG) ∧
        result.txSig.isSome then
      { st2 with
          lastPositionOpenTime := some now
          currentOpenOracle := some solPrice
          currentOpenDirection :=
            some (if result.action = .OPEN_LONG then Direction.LONG
              else Direction.SHORT)
          currentOpenSize :=
            some (match driftInfo.position with
              | some p => |p.baseAmount|
              | none => decision.size_usd / solPrice) }
    else st2
  let st4 :=
    if (result.action = .CLOSE_SHORT ∨ result.action = .CLOSE_LONG) ∧
        result.txSig.isSome then
      let oracleClose := solPrice
      let oracleOpen := st3.currentOpenOracle
      let dir := st3.currentOpenDirection
      let size :=
        match st3.currentOpenSize with
        | some s =>
          if s ≠ 0 then s
          else
            match driftInfo.position with
            | some p => |p.baseAmount|
            | none => 0
        | none =>
          match driftInfo.position with
          | some p => |p.baseAmount|
          | none => 0
      let stBase :=
        { st3 with lastPositionCloseTime := some now
                   lastPositionOpenTime := none }
      let stRecorded :=
        if truthyQ oracleOpen ∧ dir.isSome ∧ 0 < size then
          let priceDiff := oracleClose - oracleOpen.getD 0
          let stratPnl :=
            if dir.getD .LONG = .LONG then priceDiff * size
            else -priceDiff * size
          { stBase with
              strategyPnL := stBase.strategyPnL + stratPnl
              strategyTrades := pushTrim 100 stBase.strategyTrades
                { time := now, direction := dir.getD .LONG
                  oracleOpen := oracleOpen.getD 0, oracleClose := oracleClose
                  size := size, pnl := stratPnl } }
        else stBase
      { stRecorded with
          currentOpenOracle := none
          currentOpenDirection := none
          currentOpenSize := none }
    else st3
  if (result.action = .CLOSE_SHORT ∨ result.action = .CLOSE_LONG) ∧
      result.txSig.isSome then
    { st4 with realizedPnL := st4.realizedPnL +
        (match driftInfo.position with
          | some p => p.unrealizedPnl
          | none => 0) }
  else st4

-- ── Open / close trade sequences for the cumulative strategy P&L claim ──────

/-- One open-then-close round trip at oracle prices: opened at p1 with
recorded size s in SOL, closed at p2. -/
structure TradeSpec where
  dir : Direction
  p1 : ℚ
  p2 : ℚ
  s : ℚ
deriving DecidableEq, Repr

/-- The open action of a direction. -/
def openActionOf : Direction → Action
  | .LONG => .OPEN_LONG
  | .SHORT => .OPEN_SHORT

/-- The close action of a direction. -/
def closeActionOf : Direction → Action
  | .LONG => .CLOSE_LONG
  | .SHORT => .CLOSE_SHORT

/-- The strategy P&L of one round trip as the specification states it. -/
def specPnl (sp : TradeSpec) : ℚ :=
  if sp.dir = .LONG then (sp.p2 - sp.p1) * sp.s else (sp.p1 - sp.p2) * sp.s

/-- A drift snapshot with no open position, as seen by a cycle that opens a
fresh position and by the matching close cycle. -/
def noPositionDrift : DriftInfo :=
  { available := true, hasAccount := true, position := none
    driftBalance := 0, freeCollateral := 0, openOrders := 0 }

/-- A neutral decision skeleton used to drive recorded cycles. -/
def plainDecision (a : Action) (sizeUsd : ℚ) : Decision :=
  { action := a, amount := 0, size_usd := sizeUsd, leverage := 2
    confidence := 70, reason := .noClearSignal, market_outlook := .neutral }

/-- Record an executed open at oracle price p1 followed by an executed close
at oracle price p2 for one round trip.  The open cycle carries
size_usd = s * p1 so that the recorded SOL size is s. -/
def openCloseStep (st : AgentState) (sp : TradeSpec) : AgentState :=
  let stOpen := tradingCycleRecord st
    (plainDecision (openActionOf sp.dir) (sp.s * sp.p1))
    { txSig := some 1, action := openActionOf sp.dir, amount := sp.s * sp.p1 }
    sp.p1 0 0 noPositionDrift 0
  tradingCycleRecord stOpen
    (plainDecision (closeActionOf sp.dir) 0)
    { txSig := some 1, action := closeActionOf sp.dir, amount := 0 }
    sp.p2 0 0 noPositionDrift 0

/-- A sequence of recorded round trips. -/
def runTrades (st : AgentState) (specs : List TradeSpec) : AgentState :=
  specs.foldl openCloseStep st

-- ── General helper lemmas ────────────────────────────────────────────────────

lemma jsOr_zero (x : ℚ) : jsOr x 0 = x := by
  unfold jsOr
  split <;> simp_all

lemma pushTrim_getLast (cap : ℕ) (l : List α) (x : α) (hcap : 0 < cap) :
    (pushTrim cap l x).getLast? = some x := by
  simp only [pushTrim]
  split
  · have hle : (l ++ [x]).length - cap ≤ l.length := by
      rw [List.length_append, List.length_singleton]
      omega
    rw [List.drop_append_of_le_length hle, List.getLast?_concat]
  · exact List.getLast?_concat l

lemma round2_le_add (x : ℚ) : round2 x ≤ x + 1/200 := by
  have h : (jsRound (x * 100) : ℚ) ≤ x * 100 + 1/2 := by
    unfold jsRound
    exact Int.floor_le _
  unfold round2
  linarith

-- ── Claim C6: advisor failure falls back to the rule engine ─────────────────

/-- C6: whenever the advisor call fails (transport error or timeout, non-2xx
response, empty or missing content, or no parsable JSON object in the
content), askClaude returns exactly the decision makeRuleBasedDecision
produces for the same context; askClaude is total, so the cycle is never
aborted by an advisor failure. -/
theorem claim_C6 (response : AdvisorResponse)
    (extract : String → Option Decision) (context : Context)
    (h : response = .transportError ∨ response = .httpError ∨
      response = .ok none ∨
      ∃ c, response = .ok (some c) ∧ extract c = none) :
    askClaude response extract context = makeRuleBasedDecision context := by
  rcases h with h | h | h | ⟨c, h, he⟩
  · subst h; rfl
  · subst h; rfl
  · subst h; rfl
  · subst h; simp [askClaude, he]

/-- Witness for C6 at the spec scenario: agent 10, treasury 10, bearish 24h
change, no venue; the fallback decision is an allocate-to-treasury of 3 with
confidence 70. -/
theorem claim_C6_witness :
    askClaude .transportError (fun _ => none)
      { agentBalance := 10, treasuryBalance := 10, solChange24h := -5
        priceHistory := [], driftAvailable := false, driftPosition := none
        freeCollateral := 0 } =
      { action := .ALLOCATE_TO_TREASURY, amount := 3, size_usd := 0
        leverage := 2, confidence := 70
        reason := .bearishProtectCapital (-5) 0
        market_outlook := .bearish } :=
  (claim_C6 _ _ _ (Or.inl rfl)).trans (by
    norm_num [makeRuleBasedDecision, ruleMomentum, MIN_USDC_TRADE])

-- ── Claim C7: price feed sanity filter ──────────────────────────────────────

lemma getSOLPrice_pos (lastGoodPrice : Option ℚ) (f : FetchOutcome) (g : ℚ)
    (hlg : lastGoodPrice = some g) (hg : 0 < g) :
    0 < (getSOLPrice lastGoodPrice f).1.price ∧
    ∃ g2, (getSOLPrice lastGoodPrice f).2 = some g2 ∧ 0 < g2 := by
  subst hlg
  cases f with
  | fail =>
    simp only [getSOLPrice]
    rw [if_pos hg.ne']
    exact ⟨hg, g, rfl, hg⟩
  | ok p c =>
    simp only [getSOLPrice]
    split
    · exact ⟨hg, g, rfl, hg⟩
    · next hrej =>
      have hle : ¬ |p - g| / g > 30/100 := fun hgt => hrej ⟨hg.ne', hgt⟩
      push_neg at hle
      have habs : |p - g| ≤ 30/100 * g := by
        rw [div_le_iff₀ hg] at hle
        linarith
      have hlow : -(30/100 * g) ≤ p - g := neg_le_of_abs_le habs
      have hp : 0 < p := by linarith
      exact ⟨hp, p, rfl, hp⟩

/-- C7: the price provider rejects a reading that jumps more than 30 percent
away from the last accepted price and answers the last good price with the
internal cell unchanged; and once a positive price has been accepted, every
later result (over any sequence of fetch outcomes, successes and failures
alike) stays positive, so the 0 sentinel can only be returned before any good
price was ever observed. -/
theorem claim_C7 :
    (∀ g p c, 0 < g → |p - g| / g > 30/100 →
      getSOLPrice (some g) (.ok p c) =
        ({ price := g, change24h := jsOr c 0 }, some g)) ∧
    (∀ lastGoodPrice f g, lastGoodPrice = some g → 0 < g →
      0 < (getSOLPrice lastGoodPrice f).1.price ∧
      ∃ g2, (getSOLPrice lastGoodPrice f).2 = some g2 ∧ 0 < g2) ∧
    (∀ fs lastGoodPrice g, lastGoodPrice = some g → 0 < g →
      ∀ r ∈ (runPrices lastGoodPrice fs).1, 0 < r.price) := by
  refine ⟨?_, getSOLPrice_pos, ?_⟩
  · intro g p c hg hjump
    simp only [getSOLPrice]
    rw [if_pos ⟨hg.ne', hjump⟩]
  · intro fs
    induction fs with
    | nil => intro lg g hlg hg r hr; simp [runPrices] at hr
    | cons f rest ih =>
      intro lg g hlg hg r hr
      obtain ⟨hpos, g2, hg2, hg2pos⟩ := getSOLPrice_pos lg f g hlg hg
      simp only [runPrices, List.mem_cons] at hr
      rcases hr with hr | hr
      · subst hr; exact hpos
      · exact ih (getSOLPrice lg f).2 g2 hg2 hg2pos r hr

/-- Witness for C7 at the spec example: last good 100, new reading 140 (a 40
percent jump) returns 100 and keeps 100 as the good price. -/
theorem claim_C7_witness :
    getSOLPrice (some 100) (.ok 140 5) =
      ({ price := 100, change24h := 5 }, some 100) :=
  (claim_C7.1 100 140 5 (by norm_num)
    (by rw [show |(140:ℚ) - 100| = 40 by norm_num]; norm_num)).trans
    (by norm_num [jsOr])

-- ── Claims C2, C3, C10: guards and the execution router ─────────────────────

lemma open_not_close {a : Action} (h : isOpenReqB a = true) :
    isCloseReqB a = false := by
  cases a <;> simp_all [isOpenReqB, isCloseReqB]

/-- C2: whenever the anti-churn gate downgrades the proposed open or close
(minimum hold time, spread tolerance, cooldown, or same-direction stacking),
executeTrade performs no backend mutating call and returns the neutral HOLD
result, and the trade record of that cycle carries action HOLD and amount 0. -/
theorem claim_C2 (decision : Decision) (agentBalance treasuryBalance : ℚ)
    (driftInfo : DriftInfo) (st : AgentState) (now : ℚ) (env : ExecEnv)
    (h : antiChurnFires decision.action st driftInfo now = true) :
    executeTrade decision agentBalance treasuryBalance driftInfo st now env =
      (holdResult, []) ∧
    ∀ solPrice aB tB now2,
      ((tradingCycleRecord st decision
          (executeTrade decision agentBalance treasuryBalance driftInfo st now
            env).1 solPrice aB tB driftInfo now2).trades.getLast?.map
        fun tr => (tr.action, tr.amount)) = some (Action.HOLD, (0 : ℚ)) := by
  have hexec : executeTrade decision agentBalance treasuryBalance driftInfo st
      now env = (holdResult, []) := by
    unfold antiChurnFires at h
    simp only [Bool.or_eq_true, Bool.and_eq_true] at h
    rcases h with ⟨hcl, hg⟩ | ⟨hop, hg⟩
    · rcases hg with h1 | h2
      · simp [executeTrade, hcl, h1]
      · cases hg1 : closeGuard1 st.lastPositionOpenTime now
        · simp [executeTrade, hcl, hg1, h2]
        · simp [executeTrade, hcl, hg1]
    · have hncl : isCloseReqB decision.action = false := open_not_close hop
      rcases hg with h3 | h4
      · simp [executeTrade, hncl, hop, h3]
      · cases hg3 : openGuard3 st.lastPositionCloseTime now
        · simp [executeTrade, hncl, hop, hg3, h4]
        · simp [executeTrade, hncl, hop, hg3]
  refine ⟨hexec, ?_⟩
  intro solPrice aB tB now2
  rw [hexec]
  simp [tradingCycleRecord, holdResult, pushTrim_getLast]

/-- Fixture: an environment in which every backend call succeeds, the open
limit order does not fill, and the close order fills. -/
def exEnv : ExecEnv :=
  { driftAvailable := true, depositResult := some 3
    openResult := some { txSig := 4, price := 100 }, openFills := false
    closeResult := some (some { txSig := 7, pnl := -2 }), closeFills := true
    transferResult := some 9 }

/-- Fixture: a state whose position was opened at time 1000. -/
def exStateHeld : AgentState :=
  { freshState 0 with lastPositionOpenTime := some 1000 }

/-- Witness for C2: a close proposed 1000 ms after the open fires the
minimum-hold guard; no backend call happens and the recorded trade is a HOLD
of 0. -/
theorem claim_C2_witness :
    executeTrade (plainDecision .CLOSE_LONG 0) 10 10 noPositionDrift
      exStateHeld 2000 exEnv = (holdResult, []) ∧
    ((tradingCycleRecord exStateHeld (plainDecision .CLOSE_LONG 0)
        (executeTrade (plainDecision .CLOSE_LONG 0) 10 10 noPositionDrift
          exStateHeld 2000 exEnv).1 100 10 10 noPositionDrift
        3000).trades.getLast?.map
      fun tr => (tr.action, tr.amount)) = some (Action.HOLD, (0 : ℚ)) := by
  have h := claim_C2 (plainDecision .CLOSE_LONG 0) 10 10 noPositionDrift
    exStateHeld 2000 exEnv (by
      norm_num [antiChurnFires, isCloseReqB, isOpenReqB, closeGuard1,
        closeGuard2, openGuard3, openGuard4, plainDecision, exStateHeld,
        freshState, noPositionDrift, MIN_POSITION_HOLD_MS])
  exact ⟨h.1, h.2 100 10 10 3000⟩

/-- C3: with a (JS-truthy, positive) recorded position-open time, a close
requested before the minimum hold time elapses is downgraded to HOLD with no
backend call; consequently whenever a close request actually reaches the
venue, at least MIN_POSITION_HOLD_MS have passed since the recorded open. -/
theorem claim_C3 (decision : Decision) (agentBalance treasuryBalance : ℚ)
    (driftInfo : DriftInfo) (st : AgentState) (now tOpen : ℚ) (env : ExecEnv)
    (hOpen : st.lastPositionOpenTime = some tOpen) (hpos : 0 < tOpen)
    (hClose : isCloseReqB decision.action = true) :
    (now - tOpen < MIN_POSITION_HOLD_MS →
      executeTrade decision agentBalance treasuryBalance driftInfo st now env =
        (holdResult, [])) ∧
    (Call.venueClose ∈
        (executeTrade decision agentBalance treasuryBalance driftInfo st now
          env).2 →
      MIN_POSITION_HOLD_MS ≤ now - tOpen) := by
  have key : now - tOpen < MIN_POSITION_HOLD_MS →
      executeTrade decision agentBalance treasuryBalance driftInfo st now env =
        (holdResult, []) := by
    intro hlt
    have hg : closeGuard1 st.lastPositionOpenTime now = true := by
      rw [hOpen]
      simp [closeGuard1, hpos.ne', hlt]
    simp [executeTrade, hClose, hg]
  refine ⟨key, ?_⟩
  intro hmem
  by_contra hge
  push_neg at hge
  rw [key hge] at hmem
  simp at hmem

/-- Witness for C3: the close proposed 1000 ms after an open at time 1000 is
downgraded. -/
theorem claim_C3_witness :
    executeTrade (plainDecision .CLOSE_SHORT 0) 10 10 noPositionDrift
      exStateHeld 2000 exEnv = (holdResult, []) :=
  (claim_C3 (plainDecision .CLOSE_SHORT 0) 10 10 noPositionDrift exStateHeld
    2000 1000 exEnv rfl (by norm_num) (by decide)).1
    (by norm_num [MIN_POSITION_HOLD_MS])

/-- C10: an open whose limit order is placed but does not fill yields a HOLD
result of amount 0 that keeps the placement signature; the cycle then records
a HOLD trade carrying that signature, increments the transaction counter, and
leaves the hold timer and the strategy open-reference fields unchanged. -/
theorem claim_C10 (decision : Decision) (agentBalance treasuryBalance : ℚ)
    (driftInfo : DriftInfo) (st : AgentState) (now : ℚ) (env : ExecEnv)
    (r : OpenResult)
    (hAct : decision.action = .OPEN_SHORT ∨ decision.action = .OPEN_LONG)
    (hG3 : openGuard3 st.lastPositionCloseTime now = false)
    (hG4 : openGuard4 driftInfo decision.action = false)
    (hAvail : env.driftAvailable = true)
    (hOpenR : env.openResult = some r)
    (hNoFill : env.openFills = false)
    (hSize : ¬ min (jsOr decision.size_usd 5) MAX_PERP_SIZE_USD <
      MIN_PERP_SIZE_USD) :
    (executeTrade decision agentBalance treasuryBalance driftInfo st now
        env).1 = { txSig := some r.txSig, action := .HOLD, amount := 0 } ∧
    ∀ solPrice aB tB now2,
      ((tradingCycleRecord st decision
          { txSig := some r.txSig, action := .HOLD, amount := 0 }
          solPrice aB tB driftInfo now2).trades.getLast?.map
        fun tr => (tr.action, tr.amount, tr.txSig)) =
          some (Action.HOLD, (0 : ℚ), some r.txSig) ∧
      (tradingCycleRecord st decision
          { txSig := some r.txSig, action := .HOLD, amount := 0 }
          solPrice aB tB driftInfo now2).totalTransactions =
        st.totalTransactions + 1 ∧
      (tradingCycleRecord st decision
          { txSig := some r.txSig, action := .HOLD, amount := 0 }
          solPrice aB tB driftInfo now2).lastPositionOpenTime =
        st.lastPositionOpenTime ∧
      (tradingCycleRecord st decision
          { txSig := some r.txSig, action := .HOLD, amount := 0 }
          solPrice aB tB driftInfo now2).currentOpenOracle =
        st.currentOpenOracle ∧
      (tradingCycleRecord st decision
          { txSig := some r.txSig, action := .HOLD, amount := 0 }
          solPrice aB tB driftInfo now2).currentOpenDirection =
        st.currentOpenDirection ∧
      (tradingCycleRecord st decision
          { txSig := some r.txSig, action := .HOLD, amount := 0 }
          solPrice aB tB driftInfo now2).currentOpenSize =
        st.currentOpenSize := by
  constructor
  · rcases hAct with h | h <;> rw [h] at hG4 <;>
      simp [executeTrade, h, isCloseReqB, isOpenReqB, isDriftActionB, hG3,
        hG4, hAvail, hOpenR, hNoFill, openDispatch, hSize]
  · intro solPrice aB tB now2
    refine ⟨?_, ?_, ?_, ?_, ?_, ?_⟩ <;>
      simp [tradingCycleRecord, pushTrim_getLast]

/-- Witness for C10 at a concrete open that does not fill. -/
theorem claim_C10_witness :
    (executeTrade (plainDecision .OPEN_LONG 5) 10 10 noPositionDrift
        (freshState 0) 2000 exEnv).1 =
      { txSig := some 4, action := .HOLD, amount := 0 } ∧
    ((tradingCycleRecord (freshState 0) (plainDecision .OPEN_LONG 5)
        { txSig := some 4, action := .HOLD, amount := 0 } 100 10 10
        noPositionDrift 3000).trades.getLast?.map
      fun tr => (tr.action, tr.amount, tr.txSig)) =
        some (Action.HOLD, (0 : ℚ), some 4) := by
  have h := claim_C10 (plainDecision .OPEN_LONG 5) 10 10 noPositionDrift
    (freshState 0) 2000 exEnv { txSig := 4, price := 100 } (Or.inr rfl)
    (by decide) (by decide) rfl rfl rfl (by norm_num [jsOr, MAX_PERP_SIZE_USD,
      MIN_PERP_SIZE_USD, plainDecision])
  exact ⟨h.1, (h.2 100 10 10 3000).1⟩

-- ── Claim C9: analyzeTrend strength formula ─────────────────────────────────

/-- C9 (amended): with fewer than five readings analyzeTrend returns the
neutral zero-strength record; with five or more, the returned strength is the
claimed clamp(|smaDiff| * 20 + max(consecutiveUp, consecutiveDown) * 10, 0,
100) rounded to the nearest integer by Math.round. -/
theorem claim_C9 (priceHistory : List PricePoint) :
    (priceHistory.length < 5 →
      analyzeTrend priceHistory =
        { trend := .neutral, strength := 0, momentum := 0, support := none
          resistance := none, smaShort := none, smaLong := none
          consecutiveUp := none, consecutiveDown := none
          priceVsRange := none }) ∧
    (5 ≤ priceHistory.length →
      (analyzeTrend priceHistory).strength =
        (jsRound (max 0 (min 100
          (|smaDiffOf (recentOf (pricesOf priceHistory))| * 20 +
            ((max (consecOf (recentOf (pricesOf priceHistory))).1
              (consecOf (recentOf (pricesOf priceHistory))).2 : ℕ) : ℚ) *
              10))) : ℚ)) := by
  constructor
  · intro h
    unfold analyzeTrend
    rw [if_pos h]
  · intro h
    have hnot : ¬ priceHistory.length < 5 := not_lt.mpr h
    unfold analyzeTrend
    rw [if_neg hnot]
    dsimp only
    have hnn : (0:ℚ) ≤ min 100
        (|smaDiffOf (recentOf (pricesOf priceHistory))| * 20 +
          ((max (consecOf (recentOf (pricesOf priceHistory))).1
            (consecOf (recentOf (pricesOf priceHistory))).2 : ℕ) : ℚ) * 10) :=
      le_min (by norm_num)
        (add_nonneg (mul_nonneg (abs_nonneg _) (by norm_num))
          (mul_nonneg (Nat.cast_nonneg _) (by norm_num)))
    rw [max_eq_right hnn]

/-- Fixture for C9: six readings, five flat then one up tick. -/
def exHist6 : List PricePoint :=
  [⟨0, 100⟩, ⟨1, 100⟩, ⟨2, 100⟩, ⟨3, 100⟩, ⟨4, 100⟩, ⟨5, 101⟩]

/-- Witness for C9 at the two regimes: an empty history gives the neutral
record, and the six-reading fixture satisfies the rounded strength formula. -/
theorem claim_C9_witness :
    analyzeTrend [] =
      { trend := .neutral, strength := 0, momentum := 0, support := none
        resistance := none, smaShort := none, smaLong := none
        consecutiveUp := none, consecutiveDown := none
        priceVsRange := none } ∧
    (analyzeTrend exHist6).strength =
      (jsRound (max 0 (min 100
        (|smaDiffOf (recentOf (pricesOf exHist6))| * 20 +
          ((max (consecOf (recentOf (pricesOf exHist6))).1
            (consecOf (recentOf (pricesOf exHist6))).2 : ℕ) : ℚ) *
            10))) : ℚ) :=
  ⟨(claim_C9 []).1 (by norm_num),
    (claim_C9 exHist6).2 (by norm_num [exHist6])⟩

/-- Counterexample for C9 as frozen: on the six-reading fixture the returned
strength is the rounded value 11, not the raw clamp value 6410/601. -/
theorem claim_C9_counterexample :
    (analyzeTrend exHist6).strength ≠
      min 100 (|smaDiffOf (recentOf (pricesOf exHist6))| * 20 +
        ((max (consecOf (recentOf (pricesOf exHist6))).1
          (consecOf (recentOf (pricesOf exHist6))).2 : ℕ) : ℚ) * 10) := by
  have h1 : smaDiffOf (recentOf (pricesOf exHist6)) = 20/601 := by
    norm_num [smaDiffOf, smaShortOf, smaLongOf, recentOf, pricesOf, exHist6]
  have h2 : consecOf (recentOf (pricesOf exHist6)) = (1, 0) := by
    norm_num [consecOf, consecLoop, recentOf, pricesOf, exHist6]
  have h3 : ¬ exHist6.length < 5 := by norm_num [exHist6]
  unfold analyzeTrend
  rw [if_neg h3]
  dsimp only
  rw [h1, h2]
  have habs : |(20:ℚ)/601| = 20/601 := abs_of_nonneg (by norm_num)
  have hmin : (100:ℚ) ⊓ (20/601 * 20 + 10) = 6410/601 := by
    rw [min_eq_right (by norm_num)]
    norm_num
  have hfl : ⌊(6410:ℚ)/601 + 1/2⌋ = 11 := by norm_num [Int.floor_eq_iff]
  norm_num [jsRound, habs, hmin, hfl]

-- ── Claim C5: spread-tolerance guard uses the 10 USD fallback ───────────────

/-- Fixture for C5: a LONG position of notional 100 with a 2 USD unrealized
loss (2 percent of notional, below the 3 percent spread tolerance). -/
def c5Position : Position :=
  { baseAmount := 1/2, quoteAmount := 100, direction := .LONG
    unrealizedPnl := -2 }

/-- Fixture: drift snapshot holding the C5 position. -/
def c5Drift : DriftInfo :=
  { available := true, hasAccount := true, position := some c5Position
    driftBalance := 0, freeCollateral := 0, openOrders := 0 }

/-- C5 (code bug witness): a close request with a loss of 2 on a position of
notional 100 is NOT downgraded: the venue close is dispatched and the
executed action stays CLOSE_LONG, although the loss magnitude (2) is below
SPREAD_TOLERANCE_PCT of the notional (3).  The source compares the loss with
SPREAD_TOLERANCE_PCT times 10 because driftInfo.collateral and
position.sizeUsd are never produced, while its own comment (and the spec)
ask for a percentage of the position size. -/
theorem claim_C5 :
    (executeTrade (plainDecision .CLOSE_LONG 0) 10 10 c5Drift (freshState 0)
        0 exEnv).1.action = Action.CLOSE_LONG ∧
    Call.venueClose ∈ (executeTrade (plainDecision .CLOSE_LONG 0) 10 10
      c5Drift (freshState 0) 0 exEnv).2 ∧
    c5Position.unrealizedPnl < 0 ∧
    |c5Position.unrealizedPnl| ≤ SPREAD_TOLERANCE_PCT * c5Position.quoteAmount := by
  have hres : executeTrade (plainDecision .CLOSE_LONG 0) 10 10 c5Drift
      (freshState 0) 0 exEnv =
      ({ txSig := some 7, action := .CLOSE_LONG, amount := |jsOr (-2) 0| },
        [Call.venueClose]) := by
    simp only [executeTrade, plainDecision, isCloseReqB, isOpenReqB,
      isDriftActionB, closeGuard1, freshState, closeDispatch, c5Drift, exEnv,
      Bool.false_and, Bool.and_false, Bool.true_and, Bool.and_true,
      Bool.false_eq_true, if_false, Bool.not_true]
    rw [if_neg]
    · simp
    · simp only [closeGuard2, c5Position]
      norm_num [SPREAD_TOLERANCE_PCT]
  refine ⟨?_, ?_, by norm_num [c5Position], ?_⟩
  · rw [hres]
  · rw [hres]
    simp
  · norm_num [c5Position, SPREAD_TOLERANCE_PCT]

-- ── Claim C4: treasury transfer clamping ────────────────────────────────────

/-- Fixture for C4: a rebalance request of 2 USDC. -/
def c4Decision : Decision :=
  { action := .REBALANCE, amount := 2, size_usd := 0, leverage := 2
    confidence := 60, reason := .noClearSignal, market_outlook := .neutral }

/-- Counterexample for C4 as frozen: with agent balance 10, treasury 0 and a
requested REBALANCE amount of 2, the executed amount is 5 (half the
imbalance), not the claimed clamp min(2, 10 x MAX_USDC_TRADE_PCT,
10 - MIN_USDC_TRADE) = 2. -/
theorem claim_C4_counterexample :
    (executeTrade c4Decision 10 0 noPositionDrift (freshState 0) 0
        exEnv).1.amount = 5 ∧
    min c4Decision.amount
      (min (10 * MAX_USDC_TRADE_PCT) (10 - MIN_USDC_TRADE)) = 2 ∧
    (5 : ℚ) ≠ 2 := by
  refine ⟨?_, ?_, by norm_num⟩
  · have hr5 : round2 (5 : ℚ) = 5 := by
      have hfl : ⌊(5 : ℚ) * 100 + 1/2⌋ = 500 := by norm_num [Int.floor_eq_iff]
      simp only [round2, jsRound, hfl]
      norm_num
    simp only [executeTrade, c4Decision, isCloseReqB, isOpenReqB,
      isDriftActionB, treasuryDispatch, exEnv, Bool.false_and, Bool.and_false,
      Bool.true_and, Bool.and_true, if_false, Bool.false_eq_true]
    norm_num [jsOr, MIN_USDC_TRADE]
    rw [if_neg (by simp : ¬ Action.REBALANCE = Action.HOLD)]
    simp [hr5]
  · norm_num [c4Decision, MAX_USDC_TRADE_PCT, MIN_USDC_TRADE]

/-- C4 (amended): for ALLOCATE_TO_TREASURY and WITHDRAW_FROM_TREASURY the
executed amount is the requested amount clamped to min(requested,
sourceBalance x MAX_USDC_TRADE_PCT, sourceBalance - MIN_USDC_TRADE) and then
rounded to whole cents, with a downgrade to HOLD and no transfer when the
request or the clamped amount is below the minimum trade size; REBALANCE
ignores the clamp and the requested amount (beyond the minimum-request gate)
and transfers half the imbalance |agentBalance - total/2| rounded to cents,
downgrading to HOLD when that is below the minimum trade size. -/
theorem claim_C4 (decision : Decision) (agentBalance treasuryBalance : ℚ)
    (driftInfo : DriftInfo) (st : AgentState) (now : ℚ) (env : ExecEnv)
    (s : ℕ) (hT : env.transferResult = some s) :
    (decision.action = .ALLOCATE_TO_TREASURY →
      (decision.amount < MIN_USDC_TRADE →
        executeTrade decision agentBalance treasuryBalance driftInfo st now
          env = (holdResult, [])) ∧
      (MIN_USDC_TRADE ≤ decision.amount →
        (min decision.amount (min (agentBalance * MAX_USDC_TRADE_PCT)
            (agentBalance - MIN_USDC_TRADE)) < MIN_USDC_TRADE →
          executeTrade decision agentBalance treasuryBalance driftInfo st now
            env = (holdResult, [])) ∧
        (MIN_USDC_TRADE ≤ min decision.amount
            (min (agentBalance * MAX_USDC_TRADE_PCT)
              (agentBalance - MIN_USDC_TRADE)) →
          executeTrade decision agentBalance treasuryBalance driftInfo st now
            env =
            ({ txSig := some s, action := .ALLOCATE_TO_TREASURY
               amount := round2 (min decision.amount
                 (min (agentBalance * MAX_USDC_TRADE_PCT)
                   (agentBalance - MIN_USDC_TRADE))) },
              [Call.spotTransfer .agent (round2 (min decision.amount
                (min (agentBalance * MAX_USDC_TRADE_PCT)
                  (agentBalance - MIN_USDC_TRADE))))])))) ∧
    (decision.action = .WITHDRAW_FROM_TREASURY →
      (decision.amount < MIN_USDC_TRADE →
        executeTrade decision agentBalance treasuryBalance driftInfo st now
          env = (holdResult, [])) ∧
      (MIN_USDC_TRADE ≤ decision.amount →
        (min decision.amount (min (treasuryBalance * MAX_USDC_TRADE_PCT)
            (treasuryBalance - MIN_USDC_TRADE)) < MIN_USDC_TRADE →
          executeTrade decision agentBalance treasuryBalance driftInfo st now
            env = (holdResult, [])) ∧
        (MIN_USDC_TRADE ≤ min decision.amount
            (min (treasuryBalance * MAX_USDC_TRADE_PCT)
              (treasuryBalance - MIN_USDC_TRADE)) →
          executeTrade decision agentBalance treasuryBalance driftInfo st now
            env =
            ({ txSig := some s, action := .WITHDRAW_FROM_TREASURY
               amount := round2 (min decision.amount
                 (min (treasuryBalance * MAX_USDC_TRADE_PCT)
                   (treasuryBalance - MIN_USDC_TRADE))) },
              [Call.spotTransfer .treasury (round2 (min decision.amount
                (min (treasuryBalance * MAX_USDC_TRADE_PCT)
                  (treasuryBalance - MIN_USDC_TRADE))))])))) ∧
    (decision.action = .REBALANCE →
      (decision.amount < MIN_USDC_TRADE →
        executeTrade decision agentBalance treasuryBalance driftInfo st now
          env = (holdResult, [])) ∧
      (MIN_USDC_TRADE ≤ decision.amount →
        (|agentBalance - (agentBalance + treasuryBalance) / 2| <
            MIN_USDC_TRADE →
          executeTrade decision agentBalance treasuryBalance driftInfo st now
            env = (holdResult, [])) ∧
        (MIN_USDC_TRADE ≤
            |agentBalance - (agentBalance + treasuryBalance) / 2| →
          executeTrade decision agentBalance treasuryBalance driftInfo st now
            env =
            ({ txSig := some s, action := .REBALANCE
               amount := round2
                 |agentBalance - (agentBalance + treasuryBalance) / 2| },
              [Call.spotTransfer
                (if agentBalance - (agentBalance + treasuryBalance) / 2 > 0
                  then Account.agent else Account.treasury)
                (round2
                  |agentBalance - (agentBalance + treasuryBalance) / 2|)])))) := by
  refine ⟨?_, ?_, ?_⟩ <;> intro hA
  · refine ⟨fun hlt => ?_, fun hge => ⟨fun hcl => ?_, fun hcg => ?_⟩⟩
    · simp [executeTrade, hA, isCloseReqB, isOpenReqB, isDriftActionB, jsOr_zero,
        hlt]
    · simp [executeTrade, hA, isCloseReqB, isOpenReqB, isDriftActionB, jsOr_zero,
        not_lt.mpr hge, treasuryDispatch, not_le.mpr hcl, hT]
    · simp [executeTrade, hA, isCloseReqB, isOpenReqB, isDriftActionB, jsOr_zero,
        not_lt.mpr hge, treasuryDispatch, hcg, hT]
  · refine ⟨fun hlt => ?_, fun hge => ⟨fun hcl => ?_, fun hcg => ?_⟩⟩
    · simp [executeTrade, hA, isCloseReqB, isOpenReqB, isDriftActionB, jsOr_zero,
        hlt]
    · simp [executeTrade, hA, isCloseReqB, isOpenReqB, isDriftActionB, jsOr_zero,
        not_lt.mpr hge, treasuryDispatch, not_le.mpr hcl, hT]
    · simp [executeTrade, hA, isCloseReqB, isOpenReqB, isDriftActionB, jsOr_zero,
        not_lt.mpr hge, treasuryDispatch, hcg, hT]
  · refine ⟨fun hlt => ?_, fun hge => ⟨fun hcl => ?_, fun hcg => ?_⟩⟩
    · simp [executeTrade, hA, isCloseReqB, isOpenReqB, isDriftActionB, jsOr_zero,
        hlt]
    · simp [executeTrade, hA, isCloseReqB, isOpenReqB, isDriftActionB, jsOr_zero,
        not_lt.mpr hge, treasuryDispatch, not_le.mpr hcl, hT]
    · simp [executeTrade, hA, isCloseReqB, isOpenReqB, isDriftActionB, jsOr_zero,
        not_lt.mpr hge, treasuryDispatch, hcg, hT]

/-- Fixture for the C4 witness: an allocate request of 3 USDC. -/
def c4AllocDecision : Decision :=
  { action := .ALLOCATE_TO_TREASURY, amount := 3, size_usd := 0, leverage := 2
    confidence := 70, reason := .noClearSignal, market_outlook := .neutral }

/-- Witness for C4 (amended) at an allocate of 3 from an agent balance of 20:
the clamp min(3, 5, 19.5) = 3 passes the minimum and the transfer goes out
rounded to cents. -/
theorem claim_C4_witness :
    executeTrade c4AllocDecision 20 0 noPositionDrift (freshState 0) 0 exEnv =
      ({ txSig := some 9, action := .ALLOCATE_TO_TREASURY
         amount := round2 (min c4AllocDecision.amount
           (min (20 * MAX_USDC_TRADE_PCT) (20 - MIN_USDC_TRADE))) },
        [Call.spotTransfer .agent (round2 (min c4AllocDecision.amount
          (min (20 * MAX_USDC_TRADE_PCT) (20 - MIN_USDC_TRADE))))]) := by
  have h := (claim_C4 c4AllocDecision 20 0 noPositionDrift (freshState 0) 0
    exEnv 9 rfl).1 rfl
  exact (h.2 (by norm_num [c4AllocDecision, MIN_USDC_TRADE])).2
    (by norm_num [c4AllocDecision, MIN_USDC_TRADE, MAX_USDC_TRADE_PCT])

-- ── Claim C8: executed transfers never break the reserve floor ──────────────

lemma depositDispatch_no_transfer (decision : Decision) (agentBalance : ℚ)
    (env : ExecEnv) (source : Account) (amt : ℚ) :
    Call.spotTransfer source amt ∉ (depositDispatch decision agentBalance env).2 := by
  simp only [depositDispatch]
  split
  · simp
  · split <;> simp

lemma openDispatch_no_transfer (direction : Direction) (act : Action)
    (decision : Decision) (driftInfo : DriftInfo) (env : ExecEnv)
    (source : Account) (amt : ℚ) :
    Call.spotTransfer source amt ∉
      (openDispatch direction act decision driftInfo env).2 := by
  simp only [openDispatch]
  split
  · simp
  · split
    · simp only [List.mem_append, List.mem_singleton]
      rintro (h | h)
      · split at h <;> simp at h
      · simp at h
    · split <;>
      · simp only [List.mem_append, List.mem_singleton, List.mem_cons]
        rintro (h | h)
        · split at h <;> simp at h
        · simp at h

lemma closeDispatch_no_transfer (act : Action) (decision : Decision)
    (driftInfo : DriftInfo) (env : ExecEnv) (source : Account) (amt : ℚ) :
    Call.spotTransfer source amt ∉
      (closeDispatch act decision driftInfo env).2 := by
  simp only [closeDispatch]
  split
  · simp
  · split
    · simp
    · simp
    · split <;> simp


/-- Cent rounding rounds up by at most half a cent. -/
lemma round2_sub_half (d extra : ℚ) (hd : 1/2 ≤ d) (hx : 0 ≤ extra) :
    round2 d ≤ 2 * d + extra - 1/2 := by
  by_cases h2 : 101/200 ≤ d
  · have := round2_le_add d
    linarith
  · push_neg at h2
    have hfl : ⌊d * 100 + 1/2⌋ = 50 := by
      rw [Int.floor_eq_iff]
      constructor
      · push_cast
        linarith
      · push_cast
        linarith
    unfold round2 jsRound
    rw [hfl]
    push_cast
    linarith

/-- The quarter clamp keeps an executed allocate or withdraw below the
reserve floor of its source balance. -/
lemma round2_quarter_bound (m a : ℚ) (hm : 1/2 ≤ m) (hle : m ≤ a * (1/4)) :
    round2 m ≤ a - 1/2 := by
  have h2 : (2:ℚ) ≤ a := by linarith
  have := round2_le_add m
  linarith

/-- The balance of the source account of a spot transfer. -/
def sourceBalance (source : Account) (agentBalance treasuryBalance : ℚ) : ℚ :=
  match source with
  | .agent => agentBalance
  | .treasury => treasuryBalance

lemma treasuryDispatch_bound (decision : Decision)
    (agentBalance treasuryBalance : ℚ) (env : ExecEnv)
    (ha : 0 ≤ agentBalance) (ht : 0 ≤ treasuryBalance) (source : Account)
    (amt : ℚ)
    (hmem : Call.spotTransfer source amt ∈
      (treasuryDispatch decision agentBalance treasuryBalance env).2) :
    amt ≤ sourceBalance source agentBalance treasuryBalance -
      MIN_USDC_TRADE := by
  simp only [treasuryDispatch] at hmem
  cases hA : decision.action <;> simp only [hA] at hmem
  case ALLOCATE_TO_TREASURY =>
    rw [jsOr_zero] at hmem
    split at hmem
    case isTrue hge =>
      have hle : min decision.amount (min (agentBalance * MAX_USDC_TRADE_PCT)
          (agentBalance - MIN_USDC_TRADE)) ≤ agentBalance * MAX_USDC_TRADE_PCT :=
        le_trans (min_le_right _ _) (min_le_left _ _)
      rcases htr : env.transferResult with _ | s <;> simp only [htr] at hmem <;>
        simp only [List.mem_singleton, Call.spotTransfer.injEq] at hmem <;>
        obtain ⟨hsrc, hamt⟩ := hmem <;> subst hsrc <;> subst hamt <;>
        · show round2 _ ≤ agentBalance - MIN_USDC_TRADE
          rw [MIN_USDC_TRADE] at hge ⊢
          rw [MAX_USDC_TRADE_PCT] at hle
          exact round2_quarter_bound _ _ hge hle
    case isFalse => simp at hmem
  case WITHDRAW_FROM_TREASURY =>
    rw [jsOr_zero] at hmem
    split at hmem
    case isTrue hge =>
      have hle : min decision.amount (min (treasuryBalance * MAX_USDC_TRADE_PCT)
          (treasuryBalance - MIN_USDC_TRADE)) ≤
          treasuryBalance * MAX_USDC_TRADE_PCT :=
        le_trans (min_le_right _ _) (min_le_left _ _)
      rcases htr : env.transferResult with _ | s <;> simp only [htr] at hmem <;>
        simp only [List.mem_singleton, Call.spotTransfer.injEq] at hmem <;>
        obtain ⟨hsrc, hamt⟩ := hmem <;> subst hsrc <;> subst hamt <;>
        · show round2 _ ≤ treasuryBalance - MIN_USDC_TRADE
          rw [MIN_USDC_TRADE] at hge ⊢
          rw [MAX_USDC_TRADE_PCT] at hle
          exact round2_quarter_bound _ _ hge hle
    case isFalse => simp at hmem
  case REBALANCE =>
    split at hmem
    case isTrue hge =>
      rcases htr : env.transferResult with _ | s <;> simp only [htr] at hmem <;>
        simp only [List.mem_singleton, Call.spotTransfer.injEq] at hmem <;>
        obtain ⟨hsrc, hamt⟩ := hmem <;> subst hamt <;>
        · by_cases hpos :
            agentBalance - (agentBalance + treasuryBalance) / 2 > 0
          · rw [if_pos hpos] at hsrc
            subst hsrc
            show round2 _ ≤ agentBalance - MIN_USDC_TRADE
            rw [MIN_USDC_TRADE] at hge ⊢
            rw [abs_of_pos hpos] at hge ⊢
            have hb := round2_sub_half
              (agentBalance - (agentBalance + treasuryBalance) / 2)
              treasuryBalance hge ht
            linarith
          · rw [if_neg hpos] at hsrc
            subst hsrc
            show round2 _ ≤ treasuryBalance - MIN_USDC_TRADE
            push_neg at hpos
            have hlt :
                agentBalance - (agentBalance + treasuryBalance) / 2 < 0 := by
              rcases lt_or_eq_of_le hpos with h | h
              · exact h
              · rw [MIN_USDC_TRADE, h] at hge
                norm_num at hge
            rw [MIN_USDC_TRADE] at hge ⊢
            rw [abs_of_neg hlt] at hge ⊢
            have hb := round2_sub_half
              (-(agentBalance - (agentBalance + treasuryBalance) / 2))
              agentBalance hge ha
            linarith
    case isFalse => simp at hmem
  all_goals simp at hmem


/-- C8: with nonnegative balances, every spot transfer executeTrade
dispatches (only the ALLOCATE_TO_TREASURY, WITHDRAW_FROM_TREASURY and
REBALANCE actions transfer) carries an amount of at most the source account
balance minus MIN_USDC_TRADE, so an executed transfer never drops the source
below the reserve floor. -/
theorem claim_C8 (decision : Decision) (agentBalance treasuryBalance : ℚ)
    (driftInfo : DriftInfo) (st : AgentState) (now : ℚ) (env : ExecEnv)
    (ha : 0 ≤ agentBalance) (ht : 0 ≤ treasuryBalance) :
    ∀ source amt,
      Call.spotTransfer source amt ∈
        (executeTrade decision agentBalance treasuryBalance driftInfo st now
          env).2 →
      amt ≤ sourceBalance source agentBalance treasuryBalance -
        MIN_USDC_TRADE := by
  intro source amt hmem
  have hmem2 : Call.spotTransfer source amt ∈
      (treasuryDispatch decision agentBalance treasuryBalance env).2 := by
    unfold executeTrade at hmem
    by_cases h1 : (isCloseReqB decision.action &&
        closeGuard1 st.lastPositionOpenTime now) = true
    · simp [h1] at hmem
    · rw [if_neg h1] at hmem
      by_cases h2 : (isCloseReqB decision.action && closeGuard2 driftInfo) = true
      · simp [h2] at hmem
      · rw [if_neg h2] at hmem
        by_cases h3 : (isOpenReqB decision.action &&
            openGuard3 st.lastPositionCloseTime now) = true
        · simp [h3] at hmem
        · rw [if_neg h3] at hmem
          by_cases h4 : (isOpenReqB decision.action &&
              openGuard4 driftInfo decision.action) = true
          · simp [h4] at hmem
          · rw [if_neg h4] at hmem
            by_cases h5 : isDriftActionB decision.action = true
            · rw [if_pos h5] at hmem
              exfalso
              cases h6 : env.driftAvailable
              · simp [h6] at hmem
              · rw [if_neg (by simp [h6])] at hmem
                cases hA : decision.action <;>
                  simp only [hA, isDriftActionB, Bool.false_eq_true] at hmem h5
                · exact openDispatch_no_transfer _ _ _ _ _ _ _ hmem
                · exact openDispatch_no_transfer _ _ _ _ _ _ _ hmem
                · exact closeDispatch_no_transfer _ _ _ _ _ _ hmem
                · exact closeDispatch_no_transfer _ _ _ _ _ _ hmem
                · exact depositDispatch_no_transfer _ _ _ _ _ hmem
            · rw [if_neg h5] at hmem
              by_cases h7 : decision.action = Action.HOLD ∨
                  jsOr decision.amount 0 < MIN_USDC_TRADE
              · simp [h7] at hmem
              · rw [if_neg h7] at hmem
                exact hmem
  exact treasuryDispatch_bound decision agentBalance treasuryBalance env ha ht
    source amt hmem2

/-- Witness for C8: the rebalance fixture transfers 5 out of an agent
balance of 10, and 5 is at most 10 minus the reserve. -/
theorem claim_C8_witness :
    Call.spotTransfer Account.agent 5 ∈
      (executeTrade c4Decision 10 0 noPositionDrift (freshState 0) 0
        exEnv).2 ∧
    (5 : ℚ) ≤ 10 - MIN_USDC_TRADE := by
  have hmem : Call.spotTransfer Account.agent 5 ∈
      (executeTrade c4Decision 10 0 noPositionDrift (freshState 0) 0
        exEnv).2 := by
    have hr5 : round2 (5 : ℚ) = 5 := by
      have hfl : ⌊(5 : ℚ) * 100 + 1/2⌋ = 500 := by norm_num [Int.floor_eq_iff]
      simp only [round2, jsRound, hfl]
      norm_num
    simp only [executeTrade, c4Decision, isCloseReqB, isOpenReqB,
      isDriftActionB, treasuryDispatch, exEnv, Bool.false_and, Bool.and_false,
      Bool.true_and, Bool.and_true, if_false, Bool.false_eq_true]
    norm_num [jsOr, MIN_USDC_TRADE]
    rw [if_neg (by simp : ¬ Action.REBALANCE = Action.HOLD)]
    simp [hr5]
  refine ⟨hmem, ?_⟩
  have := claim_C8 c4Decision 10 0 noPositionDrift (freshState 0) 0 exEnv
    (by norm_num) (by norm_num) Account.agent 5 hmem
  simpa [sourceBalance, MIN_USDC_TRADE] using this


-- ── Claim C1: strategy P&L reconciliation ───────────────────────────────────

lemma tradingCycleRecord_close (st : AgentState) (decision : Decision)
    (res : ExecResult) (P2 aB tB : ℚ) (di : DriftInfo) (now : ℚ)
    (P1 : ℚ) (d : Direction) (S : ℚ) (sg : ℕ)
    (hO : st.currentOpenOracle = some P1) (hP : P1 ≠ 0)
    (hD : st.currentOpenDirection = some d)
    (hS : st.currentOpenSize = some S) (hSpos : 0 < S)
    (hA : res.action = .CLOSE_SHORT ∨ res.action = .CLOSE_LONG)
    (hT : res.txSig = some sg) :
    (tradingCycleRecord st decision res P2 aB tB di
        now).strategyTrades.getLast? =
      some { time := now, direction := d, oracleOpen := P1, oracleClose := P2
             size := S
             pnl := if d = .LONG then (P2 - P1) * S else -(P2 - P1) * S } ∧
    (tradingCycleRecord st decision res P2 aB tB di now).strategyPnL =
      st.strategyPnL + (if d = .LONG then (P2 - P1) * S
        else -(P2 - P1) * S) := by
  rcases hA with hA | hA <;>
    simp [tradingCycleRecord, hA, hT, hO, hD, hS, truthyQ, hP, hSpos,
      hSpos.ne', pushTrim_getLast]

lemma tradingCycleRecord_open (st : AgentState) (decision : Decision)
    (res : ExecResult) (solPrice aB tB : ℚ) (di : DriftInfo) (now : ℚ) (sg : ℕ)
    (hA : res.action = .OPEN_SHORT ∨ res.action = .OPEN_LONG)
    (hT : res.txSig = some sg) (hdi : di.position = none) :
    (tradingCycleRecord st decision res solPrice aB tB di
        now).currentOpenOracle = some solPrice ∧
    (tradingCycleRecord st decision res solPrice aB tB di
        now).currentOpenDirection =
      some (if res.action = .OPEN_LONG then Direction.LONG
        else Direction.SHORT) ∧
    (tradingCycleRecord st decision res solPrice aB tB di
        now).currentOpenSize = some (decision.size_usd / solPrice) ∧
    (tradingCycleRecord st decision res solPrice aB tB di now).strategyPnL =
      st.strategyPnL := by
  rcases hA with hA | hA <;> simp [tradingCycleRecord, hA, hT, hdi]

lemma openCloseStep_pnl (st : AgentState) (sp : TradeSpec)
    (hp : sp.p1 ≠ 0) (hs : 0 < sp.s) :
    (openCloseStep st sp).strategyPnL = st.strategyPnL + specPnl sp := by
  unfold openCloseStep
  obtain ⟨hO, hD, hS, hPnL⟩ := tradingCycleRecord_open st
    (plainDecision (openActionOf sp.dir) (sp.s * sp.p1))
    { txSig := some 1, action := openActionOf sp.dir, amount := sp.s * sp.p1 }
    sp.p1 0 0 noPositionDrift 0 1
    (by cases sp.dir <;> simp [openActionOf]) rfl rfl
  have hdir : (if (openActionOf sp.dir) = Action.OPEN_LONG then Direction.LONG
      else Direction.SHORT) = sp.dir := by
    cases sp.dir <;> simp [openActionOf]
  rw [hdir] at hD
  have hsize : (plainDecision (openActionOf sp.dir)
      (sp.s * sp.p1)).size_usd / sp.p1 = sp.s := by
    simp only [plainDecision]
    exact mul_div_cancel_right₀ _ hp
  rw [hsize] at hS
  have hclose := tradingCycleRecord_close
    (tradingCycleRecord st (plainDecision (openActionOf sp.dir) (sp.s * sp.p1))
      { txSig := some 1, action := openActionOf sp.dir
        amount := sp.s * sp.p1 } sp.p1 0 0 noPositionDrift 0)
    (plainDecision (closeActionOf sp.dir) 0)
    { txSig := some 1, action := closeActionOf sp.dir, amount := 0 }
    sp.p2 0 0 noPositionDrift 0 sp.p1 sp.dir sp.s 1 hO hp hD hS hs
    (by cases sp.dir <;> simp [closeActionOf]) rfl
  rw [hclose.2, hPnL]
  unfold specPnl
  cases sp.dir <;> simp

lemma runTrades_pnl (specs : List TradeSpec) :
    ∀ st : AgentState, (∀ sp ∈ specs, sp.p1 ≠ 0 ∧ 0 < sp.s) →
      (runTrades st specs).strategyPnL =
        st.strategyPnL + (specs.map specPnl).sum := by
  induction specs with
  | nil =>
    intro st h
    simp [runTrades]
  | cons sp rest ih =>
    intro st h
    have h1 := h sp (List.mem_cons_self sp rest)
    have hrest : ∀ x ∈ rest, x.p1 ≠ 0 ∧ 0 < x.s := fun x hx =>
      h x (List.mem_cons_of_mem sp hx)
    show (List.foldl openCloseStep st (sp :: rest)).strategyPnL = _
    rw [List.foldl_cons]
    have := ih (openCloseStep st sp) hrest
    rw [show runTrades (openCloseStep st sp) rest =
      List.foldl openCloseStep (openCloseStep st sp) rest from rfl] at this
    rw [this, openCloseStep_pnl st sp h1.1 h1.2]
    simp
    ring

/-- C1: an executed close recorded against an open whose oracle reference
price P1 (nonzero), direction and positive size S are on file books a
strategy trade of exactly (P2 - P1) x S for LONG and (P1 - P2) x S for SHORT,
and adds that value to the cumulative strategy P&L; over any sequence of such
open / close round trips the cumulative strategy P&L equals the sum of the
per-trade values (starting from a fresh state, exactly the sum). -/
theorem claim_C1 :
    (∀ (st : AgentState) (decision : Decision) (res : ExecResult)
        (P2 aB tB : ℚ) (di : DriftInfo) (now P1 : ℚ) (d : Direction) (S : ℚ)
        (sg : ℕ),
      st.currentOpenOracle = some P1 → P1 ≠ 0 →
      st.currentOpenDirection = some d →
      st.currentOpenSize = some S → 0 < S →
      (res.action = .CLOSE_SHORT ∨ res.action = .CLOSE_LONG) →
      res.txSig = some sg →
      ∃ str, (tradingCycleRecord st decision res P2 aB tB di
          now).strategyTrades.getLast? = some str ∧
        str.pnl = (if d = .LONG then (P2 - P1) * S else (P1 - P2) * S) ∧
        (tradingCycleRecord st decision res P2 aB tB di now).strategyPnL =
          st.strategyPnL + str.pnl) ∧
    (∀ (specs : List TradeSpec) (st : AgentState),
      (∀ sp ∈ specs, sp.p1 ≠ 0 ∧ 0 < sp.s) →
      (runTrades st specs).strategyPnL =
        st.strategyPnL + (specs.map specPnl).sum) ∧
    (∀ specs : List TradeSpec, (∀ sp ∈ specs, sp.p1 ≠ 0 ∧ 0 < sp.s) →
      (runTrades (freshState 0) specs).strategyPnL =
        (specs.map specPnl).sum) := by
  refine ⟨?_, fun specs st h => runTrades_pnl specs st h, fun specs h => ?_⟩
  · intro st decision res P2 aB tB di now P1 d S sg hO hP hD hS hs hA hT
    obtain ⟨h1, h2⟩ := tradingCycleRecord_close st decision res P2 aB tB di
      now P1 d S sg hO hP hD hS hs hA hT
    refine ⟨_, h1, ?_, ?_⟩
    · cases d <;> simp
    · exact h2
  · rw [runTrades_pnl specs (freshState 0) h]
    simp [freshState]

/-- Fixture for C1: a state holding an open LONG of size 0.1 recorded at
oracle price 100. -/
def c1State : AgentState :=
  { freshState 0 with
    currentOpenOracle := some 100
    currentOpenDirection := some .LONG
    currentOpenSize := some (1/10) }

/-- Witness for C1 at the spec scenario: LONG of 0.1 SOL opened at 100 and
closed at 95 books a strategy P&L of (95 - 100) x 0.1, and a fresh state
running that single round trip accumulates exactly the per-trade sum. -/
theorem claim_C1_witness :
    (∃ str, (tradingCycleRecord c1State (plainDecision .CLOSE_LONG 0)
        { txSig := some 7, action := .CLOSE_LONG, amount := 0 } 95 0 0
        noPositionDrift 0).strategyTrades.getLast? = some str ∧
      str.pnl = (if Direction.LONG = Direction.LONG then
        ((95 : ℚ) - 100) * (1/10) else ((100 : ℚ) - 95) * (1/10)) ∧
      (tradingCycleRecord c1State (plainDecision .CLOSE_LONG 0)
        { txSig := some 7, action := .CLOSE_LONG, amount := 0 } 95 0 0
        noPositionDrift 0).strategyPnL = c1State.strategyPnL + str.pnl) ∧
    (runTrades (freshState 0)
        [{ dir := .LONG, p1 := 100, p2 := 95, s := 1/10 }]).strategyPnL =
      ([{ dir := .LONG, p1 := 100, p2 := 95, s := 1/10 }].map
        specPnl).sum :=
  ⟨claim_C1.1 c1State (plainDecision .CLOSE_LONG 0)
      { txSig := some 7, action := .CLOSE_LONG, amount := 0 } 95 0 0
      noPositionDrift 0 100 .LONG (1/10) 7 rfl (by norm_num) rfl rfl
      (by norm_num) (Or.inr rfl) rfl,
    claim_C1.2.2 [{ dir := .LONG, p1 := 100, p2 := 95, s := 1/10 }]
      (by
        intro sp hsp
        rw [List.mem_singleton] at hsp
        subst hsp
        exact ⟨by norm_num, by norm_num⟩)⟩

end Trader
